import Mathlib

/-!
Verification development for the Reely video-captioning repository.

The repository under verification consists of a React/TypeScript frontend
(VideoCard, ApiContext, Upload, Login, Layout, App) together with the
repository README and design document describing the FastAPI backend
pipeline.  The backend pipeline itself (orchestrator, normalizer,
transcription adapter, render engine, artifact store) is not part of the
available sources; where a claim depends on it, the corresponding
definition is modelled from the specification and marked as such in its
doc comment.  All other definitions are direct shallow embeddings of the
TypeScript source.
-/

namespace Reely

/-! ## Status/listing client: src/components/VideoCard.tsx -/

/-- Embedding of the icon element returned by a VideoCard status helper:
the lucide icon name together with its color class. -/
structure StatusIcon where
  icon : String
  colorClass : String
deriving DecidableEq, Repr

/-- From src/components/VideoCard.tsx lines 19-30: the switch in
getStatusIcon, with the default branch returning the Clock icon in
yellow. A TS switch on string literals is a sequential equality test, so
it is embedded as a chain of string comparisons. -/
def getStatusIcon (status : String) : StatusIcon :=
  if status = "completed" then ⟨"CheckCircle", "text-green-600"⟩
  else if status = "failed" then ⟨"XCircle", "text-red-600"⟩
  else if status = "processing" then ⟨"Loader", "text-blue-600"⟩
  else ⟨"Clock", "text-yellow-600"⟩

/-- From src/components/VideoCard.tsx lines 32-43: the switch in
getStatusText, default branch returning "Pending". -/
def getStatusText (status : String) : String :=
  if status = "completed" then "Completed"
  else if status = "failed" then "Failed"
  else if status = "processing" then "Processing"
  else "Pending"

/-- From src/components/VideoCard.tsx lines 45-56: the switch in
getStatusColor, default branch returning the yellow badge classes. -/
def getStatusColor (status : String) : String :=
  if status = "completed" then "bg-green-100 text-green-800"
  else if status = "failed" then "bg-red-100 text-red-800"
  else if status = "processing" then "bg-blue-100 text-blue-800"
  else "bg-yellow-100 text-yellow-800"

/-- The video record consumed by VideoCard
(src/components/VideoCard.tsx lines 5-16): optional fields are Option. -/
structure Video where
  id : String
  filename : String
  status : String
  created_at : String
  completed_at : Option String
  captioned_video_url : Option String
  error : Option String
deriving DecidableEq, Repr

/-- From src/components/VideoCard.tsx line 94: the download button is
rendered exactly when the status is "completed" and the captioned video
url is present. -/
def showDownload (v : Video) : Bool :=
  v.status == "completed" && v.captioned_video_url.isSome

/-- From src/components/VideoCard.tsx line 83: the error box is rendered
exactly when the error field is present (truthy). -/
def showErrorBox (v : Video) : Bool :=
  v.error.isSome

/-! ## Job status values

The backend pipeline source is not available; its status lifecycle is
recorded in the repository README ("Video Processing Pipeline" section):
step 3 sets status "processing" when the background task starts, step 7
sets status "completed" on success, and the POST /api/caption response
documents the initial status "pending"; the error-handling section and
the VideoCard client add "failed" for failed processing. -/

/-- The status values the specification declares for a Job (spec section 3). -/
def specJobStatuses : List String :=
  ["pending", "extracting_audio", "transcribing", "rendering", "completed", "failed"]

/-- The sequence of status values a job passes through, per the
repository README "Video Processing Pipeline": submission leaves the job
"pending", the background task sets "processing", and the run terminates
in "completed" on success or "failed" on a processing error. -/
def jobStatusTrace (success : Bool) : List String :=
  ["pending", "processing", if success then "completed" else "failed"]

/-- The status values that actually occur in the repository, per the
README pipeline and the client's status branches. -/
def reelyJobStatuses : List String :=
  ["pending", "processing", "completed", "failed"]

/-! ## Auth/request layer: src/contexts/ApiContext.tsx -/

/-- The axios request configuration fields relevant to the interceptor
(src/contexts/ApiContext.tsx lines 26-45): the instance is created with a
baseURL and a Content-Type header; the interceptor touches only the
Authorization header. -/
structure RequestConfig where
  baseURL : String
  url : String
  method : String
  contentType : String
  authorization : Option String
  data : String
deriving DecidableEq, Repr

/-- From src/contexts/ApiContext.tsx lines 34-41: the request
interceptor resolves the authenticated user's ID token; if a token is
available it sets the Authorization header to "Bearer " followed by the
token, and returns the configuration otherwise unchanged. -/
def addAuthHeader (token : Option String) (config : RequestConfig) : RequestConfig :=
  match token with
  | some t => { config with authorization := some ("Bearer " ++ t) }
  | none => config

/-! ## Upload form: src/pages/Upload.tsx -/

/-- The caption style state of the upload form
(src/pages/Upload.tsx lines 7-14). Numeric fields are Int so that
non-negativity is a real statement. -/
structure CaptionStyle where
  font_type : String
  font_size : Int
  font_color : String
  stroke_color : String
  stroke_width : Int
  padding : Int
deriving DecidableEq, Repr

/-- The initial caption style (src/pages/Upload.tsx lines 27-34). -/
def initialCaptionStyle : CaptionStyle :=
  ⟨"Arial", 24, "#FFFFFF", "#000000", 2, 10⟩

/-- The value an HTML range input with attributes min/max can report:
the browser clamps the slider value into [lo, hi]. -/
def clampRange (lo hi v : Int) : Int := max lo (min hi v)

/-- One user edit of the caption style form: each constructor is one of
the six controlled inputs of src/pages/Upload.tsx lines 218-315. -/
inductive StyleEvent where
  | setFontType (s : String)
  | setFontSize (v : Int)
  | setPadding (v : Int)
  | setFontColor (s : String)
  | setStrokeColor (s : String)
  | setStrokeWidth (v : Int)
deriving DecidableEq, Repr

/-- The setCaptionStyle update performed by each input's onChange
handler. The three numeric inputs are range inputs with min/max
attributes 12/72 (font_size, line 241), 0/50 (padding, line 255) and
0/10 (stroke_width, line 308), so the parsed value is clamped to those
bounds. -/
def applyStyleEvent (st : CaptionStyle) : StyleEvent → CaptionStyle
  | .setFontType s => { st with font_type := s }
  | .setFontSize v => { st with font_size := clampRange 12 72 v }
  | .setPadding v => { st with padding := clampRange 0 50 v }
  | .setFontColor s => { st with font_color := s }
  | .setStrokeColor s => { st with stroke_color := s }
  | .setStrokeWidth v => { st with stroke_width := clampRange 0 10 v }

/-- The caption style reached from the initial state after a sequence of
form edits: this is every style the form can submit. -/
def styleAfter (events : List StyleEvent) : CaptionStyle :=
  events.foldl applyStyleEvent initialCaptionStyle

/-- The bounds invariant the form maintains on the numeric style
fields. -/
def styleInBounds (st : CaptionStyle) : Prop :=
  12 ≤ st.font_size ∧ st.font_size ≤ 72 ∧
  0 ≤ st.stroke_width ∧ st.stroke_width ≤ 10 ∧
  0 ≤ st.padding ∧ st.padding ≤ 50

instance (st : CaptionStyle) : Decidable (styleInBounds st) := by
  unfold styleInBounds; infer_instance

/-- From src/pages/Upload.tsx lines 36-42 (handleFileSelect): a chosen
file becomes the selected source only when its MIME type starts with
"video/"; otherwise the selection is rejected with an alert and the
selected file stays unset. The function returns the new selected-file
state given the chosen file's MIME type. The JS startsWith check is
embedded as a character-list prefix test, which is its semantics. -/
def handleFileSelect (fileType : String) : Option String :=
  if "video/".data.isPrefixOf fileType.data then some fileType else none

/-! ## Media ingest normalizer (container validation) -/

/-- The supported container set (spec section 4.2; the repository README
"Limitations" section likewise lists MP4, AVI, MOV). -/
def supportedContainers : List String := ["mp4", "avi", "mov"]

/-- Modelled from the spec: the container/codec validation step of
normalize (section 4.2) — the normalizer source is not in the available
repository sources. It accepts a container in the supported set and
fails with UnsupportedFormat otherwise. -/
def validateContainer (container : String) : Except String Unit :=
  if container ∈ supportedContainers then .ok () else .error "UnsupportedFormat"

/-! ## Job orchestrator (spec-modelled) -/

/-- Modelled from the spec: the rank of a status in the stage order of
section 3 (pending, extracting_audio, transcribing, rendering), with the
terminal statuses ranked above every stage — the orchestrator source is
not in the available repository sources. -/
def stageRank (s : String) : Nat :=
  if s = "pending" then 0
  else if s = "extracting_audio" then 1
  else if s = "transcribing" then 2
  else if s = "rendering" then 3
  else 4

/-- Modelled from the spec: the statuses a Job may transition to from a
given status (sections 3 and 4.1) — each stage advances to the next
stage or to failed, the final stage completes, and no transition leaves
completed or failed. -/
def specNextStatuses (s : String) : List String :=
  if s = "pending" then ["extracting_audio", "failed"]
  else if s = "extracting_audio" then ["transcribing", "failed"]
  else if s = "transcribing" then ["rendering", "failed"]
  else if s = "rendering" then ["completed", "failed"]
  else []

/-- The Job record of spec section 3. -/
structure Job where
  id : String
  status : String
  source_ref : String
  style : CaptionStyle
  created_at : Nat
  completed_at : Option Nat
  error : Option String
  result_ref : Option String
deriving DecidableEq, Repr

/-- Modelled from the spec: submit creates a Job in status "pending"
with error and result_ref unset (sections 3 and 4.1). -/
def submitJob (id source_ref : String) (style : CaptionStyle) (now : Nat) : Job :=
  ⟨id, "pending", source_ref, style, now, none, none, none⟩

/-- Modelled from the spec: the terminal transition of a Job
(sections 4.1 and 7) — on success of the final stage the orchestrator
sets status "completed", completed_at and result_ref; on a non-retryable
error or an exhausted retry it sets status "failed" and records the
error, never setting result_ref. -/
def finishJob (j : Job) (outcome : Except String String) (now : Nat) : Job :=
  match outcome with
  | .ok ref =>
      { j with status := "completed", completed_at := some now, result_ref := some ref }
  | .error e =>
      { j with status := "failed", completed_at := some now, error := some e }

/-! ## Transcription engine adapter (spec-modelled) -/

/-- An Utterance of spec section 3: a timed unit of spoken text. Times
are Int so that non-negativity is a real statement. -/
structure Utterance where
  start_time : Int
  end_time : Int
  text : String
deriving DecidableEq, Repr

/-- A Transcript is an ordered sequence of Utterances (spec section 3). -/
abbrev Transcript := List Utterance

/-- Modelled from the spec: the adapter's state — the transcript cache
keyed by content fingerprint, and a count of engine invocations used to
state the at-most-one-invocation property. -/
structure AdapterState where
  cache : List (Nat × Transcript)
  engineCalls : Nat
deriving DecidableEq, Repr

/-- Association-list lookup of a fingerprint in the transcript cache. -/
def cacheLookup (fp : Nat) : List (Nat × Transcript) → Option Transcript
  | [] => none
  | (k, t) :: rest => if k = fp then some t else cacheLookup fp rest

/-- Modelled from the spec: transcribe (section 4.3) first performs a
cache lookup by fingerprint; on a hit it returns the stored Transcript
with no engine invocation; on a miss it invokes the engine and stores
the result keyed by the fingerprint before returning it. -/
def transcribe (engine : Nat → Transcript) (fp : Nat) (s : AdapterState) :
    Transcript × AdapterState :=
  match cacheLookup fp s.cache with
  | some t => (t, s)
  | none =>
      let t := engine fp
      (t, ⟨(fp, t) :: s.cache, s.engineCalls + 1⟩)

/-- A raw timed segment as received from the speech engine, before
normalization (spec section 4.3). -/
structure RawSegment where
  seg_start : Int
  seg_end : Int
  text : String
deriving DecidableEq, Repr

/-- Modelled from the spec: the segment filter of normalization
(section 4.3) — drops zero-length segments and silence segments whose
text is empty, keeping exactly the segments that can satisfy the
section 3 Utterance invariant (non-negative times, end after start,
non-empty text). -/
def keepSegment (s : RawSegment) : Bool :=
  decide (0 ≤ s.seg_start) && decide (s.seg_start < s.seg_end) && !(s.text == "")

/-- Modelled from the spec: the merge pass of normalization
(section 4.3) — merges the filtered segments into a monotonic,
non-overlapping sequence: a segment starting before the current frontier
(the previous utterance's end) is merged away, any other segment becomes
the next Utterance and advances the frontier to its end. -/
def mergeMonotonic (frontier : Int) : List RawSegment → Transcript
  | [] => []
  | s :: rest =>
      if frontier ≤ s.seg_start then
        ⟨s.seg_start, s.seg_end, s.text⟩ :: mergeMonotonic s.seg_end rest
      else
        mergeMonotonic frontier rest

/-- Modelled from the spec: normalization of raw engine segments into
the Utterance sequence of section 3. -/
def normalizeSegments (segs : List RawSegment) : Transcript :=
  mergeMonotonic 0 (segs.filter keepSegment)

/-- Modelled from the spec: the transcription result check
(section 4.3) — fails with EmptyTranscript (non-retryable) if the result
contains zero utterances after normalization. -/
def transcriptionOutcome (segs : List RawSegment) : Except String Transcript :=
  let t := normalizeSegments segs
  if t.isEmpty then .error "EmptyTranscript" else .ok t

/-- Modelled from the spec: the terminal Job produced by a pipeline run
whose later stages (render, store) succeed, as a function of the raw
transcription segments — an EmptyTranscript failure moves the job to
failed with the error recorded, a non-empty transcript lets the job
complete with the rendered artifact reference. -/
def pipelineFinalJob (j : Job) (segs : List RawSegment) (ref : String) (now : Nat) : Job :=
  match transcriptionOutcome segs with
  | .error e => finishJob j (.error e) now
  | .ok _ => finishJob j (.ok ref) now

end Reely

/-! ## Claims C1 and C10 -/

/-- C1 counterexample: the claim that every Job status is one of the six
spec values and that "processing" never appears is false on this
repository: the README pipeline sets status "processing" when the
background task starts (it occurs in every job's status trace), yet
"processing" is not among the six spec statuses; the status client even
has a dedicated branch rendering it as "Processing". -/
theorem c1_processing_status_counterexample :
    "processing" ∈ Reely.jobStatusTrace true ∧
    "processing" ∉ Reely.specJobStatuses ∧
    Reely.getStatusText "processing" = "Processing" := by
  refine ⟨?_, ?_, rfl⟩ <;> decide

/-- C1 (amended): every status value in a job's status trace is one of
pending, processing, completed, failed — the in-progress status is
"processing", not the spec's extracting_audio/transcribing/rendering —
and the status client renders each of them with one of its four labels. -/
theorem c1_job_statuses (success : Bool) (s : String)
    (hs : s ∈ Reely.jobStatusTrace success) :
    s ∈ Reely.reelyJobStatuses ∧
    Reely.getStatusText s ∈ ["Pending", "Processing", "Completed", "Failed"] := by
  cases success <;> simp [Reely.jobStatusTrace] at hs <;>
    rcases hs with h | h | h <;> subst h <;> decide

/-- Witness for c1_job_statuses at the successful trace and status
"processing". -/
theorem c1_job_statuses_witness :
    "processing" ∈ Reely.reelyJobStatuses ∧
    Reely.getStatusText "processing" ∈ ["Pending", "Processing", "Completed", "Failed"] :=
  c1_job_statuses true "processing" (by decide)

/-- C10: on every status other than "completed", "failed" and
"processing" — in particular the spec's intermediate statuses and any
unknown value — the three VideoCard status helpers fall back to the
"Pending" label, the Clock icon in yellow, and the yellow badge classes;
being total Lean functions they never fail. -/
theorem c10_status_helpers_fallback (s : String)
    (h1 : s ≠ "completed") (h2 : s ≠ "failed") (h3 : s ≠ "processing") :
    Reely.getStatusText s = "Pending" ∧
    Reely.getStatusIcon s = ⟨"Clock", "text-yellow-600"⟩ ∧
    Reely.getStatusColor s = "bg-yellow-100 text-yellow-800" := by
  refine ⟨?_, ?_, ?_⟩ <;>
    simp [Reely.getStatusText, Reely.getStatusIcon, Reely.getStatusColor, h1, h2, h3]

/-- Witness for c10_status_helpers_fallback at the spec's intermediate
status "transcribing". -/
theorem c10_status_helpers_fallback_witness :
    Reely.getStatusText "transcribing" = "Pending" ∧
    Reely.getStatusIcon "transcribing" = ⟨"Clock", "text-yellow-600"⟩ ∧
    Reely.getStatusColor "transcribing" = "bg-yellow-100 text-yellow-800" :=
  c10_status_helpers_fallback "transcribing" (by decide) (by decide) (by decide)

/-! ## Claim C6: caption style bounds -/

/-- Auxiliary invariant step: a single form edit preserves the numeric
bounds on the caption style. -/
theorem applyStyleEvent_inBounds (st : Reely.CaptionStyle) (e : Reely.StyleEvent)
    (h : Reely.styleInBounds st) : Reely.styleInBounds (Reely.applyStyleEvent st e) := by
  obtain ⟨h1, h2, h3, h4, h5, h6⟩ := h
  cases e <;>
    simp_all [Reely.applyStyleEvent, Reely.styleInBounds, Reely.clampRange]

/-- C6: every caption style the upload form can submit — i.e. every
style reachable from the initial style by form edits — has font_size in
[12, 72], stroke_width in [0, 10] and padding in [0, 50]; in particular
font_size is positive and stroke_width and padding are non-negative. -/
theorem c6_style_bounds (events : List Reely.StyleEvent) :
    Reely.styleInBounds (Reely.styleAfter events) ∧
    0 < (Reely.styleAfter events).font_size ∧
    0 ≤ (Reely.styleAfter events).stroke_width ∧
    0 ≤ (Reely.styleAfter events).padding := by
  have key : Reely.styleInBounds (Reely.styleAfter events) := by
    unfold Reely.styleAfter
    generalize hst : Reely.initialCaptionStyle = st
    have hst0 : Reely.styleInBounds st := by subst hst; decide
    clear hst
    induction events generalizing st with
    | nil => exact hst0
    | cons e rest ih =>
      exact ih _ (applyStyleEvent_inBounds st e hst0)
  obtain ⟨h1, h2, h3, h4, h5, h6⟩ := key
  exact ⟨⟨h1, h2, h3, h4, h5, h6⟩, by omega, h3, h5⟩

/-! ## Claim C7: accepted video formats -/

/-- C7: the normalizer rejects any container outside MP4/AVI/MOV with
UnsupportedFormat, accepts exactly the supported set, and at the client
boundary a chosen file becomes the selected source only if its MIME type
marks it as a video file. -/
theorem c7_supported_formats (c fileType : String)
    (hc : c ∉ Reely.supportedContainers)
    (hf : Reely.handleFileSelect fileType ≠ none) :
    Reely.validateContainer c = .error "UnsupportedFormat" ∧
    (∀ c' ∈ Reely.supportedContainers, Reely.validateContainer c' = .ok ()) ∧
    "video/".data.isPrefixOf fileType.data = true := by
  refine ⟨?_, ?_, ?_⟩
  · simp [Reely.validateContainer, hc]
  · intro c' hc'
    simp [Reely.validateContainer, hc']
  · by_contra hstart
    exact hf (by simp [Reely.handleFileSelect, hstart])

/-- Witness for c7_supported_formats: a Matroska container is rejected
while an "video/mp4" file is selectable. -/
theorem c7_supported_formats_witness :
    ("mkv" ∉ Reely.supportedContainers ∧ Reely.handleFileSelect "video/mp4" ≠ none) ∧
    (Reely.validateContainer "mkv" = .error "UnsupportedFormat" ∧
      (∀ c' ∈ Reely.supportedContainers, Reely.validateContainer c' = .ok ()) ∧
      "video/".data.isPrefixOf ("video/mp4").data = true) :=
  ⟨⟨by decide, by decide⟩,
    c7_supported_formats "mkv" "video/mp4" (by decide) (by decide)⟩

/-! ## Claim C9: request interceptor -/

/-- C9: whenever the ID token is available, the request interceptor sets
the Authorization header to "Bearer " followed by the token and leaves
every other field of the request configuration unchanged. -/
theorem c9_auth_interceptor (token : Option String) (config : Reely.RequestConfig)
    (t : String) (ht : token = some t) :
    (Reely.addAuthHeader token config).authorization = some ("Bearer " ++ t) ∧
    (Reely.addAuthHeader token config).baseURL = config.baseURL ∧
    (Reely.addAuthHeader token config).url = config.url ∧
    (Reely.addAuthHeader token config).method = config.method ∧
    (Reely.addAuthHeader token config).contentType = config.contentType ∧
    (Reely.addAuthHeader token config).data = config.data := by
  subst ht
  simp [Reely.addAuthHeader]

/-- Witness for c9_auth_interceptor on the submit POST to /api/caption
with a concrete token. -/
theorem c9_auth_interceptor_witness :
    (Reely.addAuthHeader (some "tok")
        ⟨"http://localhost:8000", "/api/caption", "POST",
          "multipart/form-data", none, "formData"⟩).authorization =
      some ("Bearer " ++ "tok") ∧
    (Reely.addAuthHeader (some "tok")
        ⟨"http://localhost:8000", "/api/caption", "POST",
          "multipart/form-data", none, "formData"⟩).baseURL = "http://localhost:8000" ∧
    (Reely.addAuthHeader (some "tok")
        ⟨"http://localhost:8000", "/api/caption", "POST",
          "multipart/form-data", none, "formData"⟩).url = "/api/caption" ∧
    (Reely.addAuthHeader (some "tok")
        ⟨"http://localhost:8000", "/api/caption", "POST",
          "multipart/form-data", none, "formData"⟩).method = "POST" ∧
    (Reely.addAuthHeader (some "tok")
        ⟨"http://localhost:8000", "/api/caption", "POST",
          "multipart/form-data", none, "formData"⟩).contentType = "multipart/form-data" ∧
    (Reely.addAuthHeader (some "tok")
        ⟨"http://localhost:8000", "/api/caption", "POST",
          "multipart/form-data", none, "formData"⟩).data = "formData" :=
  c9_auth_interceptor (some "tok")
    ⟨"http://localhost:8000", "/api/caption", "POST",
      "multipart/form-data", none, "formData"⟩ "tok" rfl

/-! ## Claim C2: status monotonicity and terminal absorption -/

/-- C2: every transition of the orchestrator's status machine is
monotone in the stage order — the successor's rank is never below the
predecessor's — and the terminal statuses completed and failed admit no
outgoing transition at all, so successive observations of one job's
status never move backward and terminal states are absorbing. -/
theorem c2_status_monotonic (s next : String)
    (h : next ∈ Reely.specNextStatuses s) :
    Reely.stageRank s ≤ Reely.stageRank next ∧
    Reely.specNextStatuses "completed" = [] ∧
    Reely.specNextStatuses "failed" = [] := by
  refine ⟨?_, rfl, rfl⟩
  unfold Reely.specNextStatuses at h
  split at h
  case isTrue hs =>
    rcases List.mem_cons.mp h with rfl | h'
    · simp [Reely.stageRank, hs]
    · simp at h'
      subst h'
      simp [Reely.stageRank, hs]
  case isFalse hs0 =>
    split at h
    case isTrue hs =>
      rcases List.mem_cons.mp h with rfl | h'
      · simp [Reely.stageRank, hs, hs0]
      · simp at h'
        subst h'
        simp [Reely.stageRank, hs]
    case isFalse hs1 =>
      split at h
      case isTrue hs =>
        rcases List.mem_cons.mp h with rfl | h'
        · simp [Reely.stageRank, hs, hs0, hs1]
        · simp at h'
          subst h'
          simp [Reely.stageRank, hs]
      case isFalse hs2 =>
        split at h
        case isTrue hs =>
          rcases List.mem_cons.mp h with rfl | h'
          · simp [Reely.stageRank, hs, hs0, hs1, hs2]
          · simp at h'
            subst h'
            simp [Reely.stageRank, hs]
        case isFalse hs3 =>
          simp at h

/-- Witness for c2_status_monotonic at the transition from "pending" to
"extracting_audio". -/
theorem c2_status_monotonic_witness :
    Reely.stageRank "pending" ≤ Reely.stageRank "extracting_audio" ∧
    Reely.specNextStatuses "completed" = [] ∧
    Reely.specNextStatuses "failed" = [] :=
  c2_status_monotonic "pending" "extracting_audio" (by decide)

/-! ## Claim C3: terminal jobs carry exactly one of error and result_ref -/

/-- C3: a Job that was in flight (neither error nor result_ref set) and
is finished by the orchestrator ends in a terminal status where
result_ref is present iff the status is "completed", error is present
iff the status is "failed", and exactly one of the two is set — a failed
Job never has result_ref; and on the consuming client a download is
offered only for a video whose status is "completed" and whose
captioned video url is present. -/
theorem c3_terminal_exclusivity (j : Reely.Job) (outcome : Except String String)
    (now : Nat) (v : Reely.Video)
    (herr : j.error = none) (href : j.result_ref = none)
    (hv : Reely.showDownload v = true) :
    ((Reely.finishJob j outcome now).status = "completed" ∨
      (Reely.finishJob j outcome now).status = "failed") ∧
    ((Reely.finishJob j outcome now).result_ref.isSome = true ↔
      (Reely.finishJob j outcome now).status = "completed") ∧
    ((Reely.finishJob j outcome now).error.isSome = true ↔
      (Reely.finishJob j outcome now).status = "failed") ∧
    (((Reely.finishJob j outcome now).result_ref.isSome = true ∧
        (Reely.finishJob j outcome now).error.isSome = false) ∨
      ((Reely.finishJob j outcome now).result_ref.isSome = false ∧
        (Reely.finishJob j outcome now).error.isSome = true)) ∧
    v.status = "completed" ∧ v.captioned_video_url.isSome = true := by
  have hv' : v.status = "completed" ∧ v.captioned_video_url.isSome = true := by
    have := hv
    simp [Reely.showDownload] at this
    exact ⟨this.1, this.2⟩
  cases outcome with
  | ok ref => simp [Reely.finishJob, herr, hv'.1, hv'.2]
  | error e => simp [Reely.finishJob, href, hv'.1, hv'.2]

/-- Witness for c3_terminal_exclusivity: a freshly submitted job
finished successfully, alongside a completed video with a download
url. -/
theorem c3_terminal_exclusivity_witness :
    ((Reely.finishJob (Reely.submitJob "j1" "src" Reely.initialCaptionStyle 0)
        (.ok "ref") 5).status = "completed" ∨
      (Reely.finishJob (Reely.submitJob "j1" "src" Reely.initialCaptionStyle 0)
        (.ok "ref") 5).status = "failed") ∧
    ((Reely.finishJob (Reely.submitJob "j1" "src" Reely.initialCaptionStyle 0)
        (.ok "ref") 5).result_ref.isSome = true ↔
      (Reely.finishJob (Reely.submitJob "j1" "src" Reely.initialCaptionStyle 0)
        (.ok "ref") 5).status = "completed") ∧
    ((Reely.finishJob (Reely.submitJob "j1" "src" Reely.initialCaptionStyle 0)
        (.ok "ref") 5).error.isSome = true ↔
      (Reely.finishJob (Reely.submitJob "j1" "src" Reely.initialCaptionStyle 0)
        (.ok "ref") 5).status = "failed") ∧
    (((Reely.finishJob (Reely.submitJob "j1" "src" Reely.initialCaptionStyle 0)
        (.ok "ref") 5).result_ref.isSome = true ∧
        (Reely.finishJob (Reely.submitJob "j1" "src" Reely.initialCaptionStyle 0)
          (.ok "ref") 5).error.isSome = false) ∨
      ((Reely.finishJob (Reely.submitJob "j1" "src" Reely.initialCaptionStyle 0)
          (.ok "ref") 5).result_ref.isSome = false ∧
        (Reely.finishJob (Reely.submitJob "j1" "src" Reely.initialCaptionStyle 0)
          (.ok "ref") 5).error.isSome = true)) ∧
    (Reely.Video.mk "v1" "a.mp4" "completed" "t0" (some "t1")
        (some "/api/download/a.mp4") none).status = "completed" ∧
    (Reely.Video.mk "v1" "a.mp4" "completed" "t0" (some "t1")
        (some "/api/download/a.mp4") none).captioned_video_url.isSome = true :=
  c3_terminal_exclusivity (Reely.submitJob "j1" "src" Reely.initialCaptionStyle 0)
    (.ok "ref") 5
    (Reely.Video.mk "v1" "a.mp4" "completed" "t0" (some "t1")
      (some "/api/download/a.mp4") none)
    rfl rfl (by decide)

/-! ## Claim C4: transcript cache idempotence -/

/-- C4: after one call of transcribe with a fingerprint, the result is
stored in the cache under that fingerprint; a second call with the same
fingerprint returns the same Transcript and leaves the adapter state —
in particular the engine-invocation count — completely unchanged, and
the two calls together invoke the engine at most once. -/
theorem c4_transcribe_idempotent (engine : Nat → Reely.Transcript) (fp : Nat)
    (s : Reely.AdapterState) :
    Reely.cacheLookup fp (Reely.transcribe engine fp s).2.cache =
      some (Reely.transcribe engine fp s).1 ∧
    (Reely.transcribe engine fp (Reely.transcribe engine fp s).2).1 =
      (Reely.transcribe engine fp s).1 ∧
    (Reely.transcribe engine fp (Reely.transcribe engine fp s).2).2 =
      (Reely.transcribe engine fp s).2 ∧
    (Reely.transcribe engine fp (Reely.transcribe engine fp s).2).2.engineCalls ≤
      s.engineCalls + 1 := by
  unfold Reely.transcribe
  cases h : Reely.cacheLookup fp s.cache with
  | some t =>
      simp [h, Nat.le_succ]
  | none =>
      have hstore :
          Reely.cacheLookup fp ((fp, engine fp) :: s.cache) = some (engine fp) := by
        unfold Reely.cacheLookup
        simp
      simp [h, hstore]

/-! ## Claim C5: empty transcript fails the job -/

/-- C5: when normalization yields zero utterances, the transcription
step fails with the non-retryable EmptyTranscript error and the job ends
failed with that error recorded — never completed with zero captions. -/
theorem c5_empty_transcript_fails (j : Reely.Job) (segs : List Reely.RawSegment)
    (ref : String) (now : Nat)
    (hempty : Reely.normalizeSegments segs = [])
    (href : j.result_ref = none) :
    Reely.transcriptionOutcome segs = .error "EmptyTranscript" ∧
    (Reely.pipelineFinalJob j segs ref now).status = "failed" ∧
    (Reely.pipelineFinalJob j segs ref now).error = some "EmptyTranscript" ∧
    (Reely.pipelineFinalJob j segs ref now).status ≠ "completed" ∧
    (Reely.pipelineFinalJob j segs ref now).result_ref = none := by
  have houtcome : Reely.transcriptionOutcome segs = .error "EmptyTranscript" := by
    simp [Reely.transcriptionOutcome, hempty]
  refine ⟨houtcome, ?_⟩
  simp [Reely.pipelineFinalJob, houtcome, Reely.finishJob, href]

/-- Witness for c5_empty_transcript_fails: a fresh job whose source is a
ten-second track whose only engine segment is silence (empty text), so
normalization yields zero utterances. -/
theorem c5_empty_transcript_fails_witness :
    (Reely.normalizeSegments [⟨0, 10, ""⟩] = [] ∧
      (Reely.submitJob "j2" "src" Reely.initialCaptionStyle 0).result_ref = none) ∧
    (Reely.transcriptionOutcome [⟨0, 10, ""⟩] = .error "EmptyTranscript" ∧
      (Reely.pipelineFinalJob (Reely.submitJob "j2" "src" Reely.initialCaptionStyle 0)
        [⟨0, 10, ""⟩] "ref" 9).status = "failed" ∧
      (Reely.pipelineFinalJob (Reely.submitJob "j2" "src" Reely.initialCaptionStyle 0)
        [⟨0, 10, ""⟩] "ref" 9).error = some "EmptyTranscript" ∧
      (Reely.pipelineFinalJob (Reely.submitJob "j2" "src" Reely.initialCaptionStyle 0)
        [⟨0, 10, ""⟩] "ref" 9).status ≠ "completed" ∧
      (Reely.pipelineFinalJob (Reely.submitJob "j2" "src" Reely.initialCaptionStyle 0)
        [⟨0, 10, ""⟩] "ref" 9).result_ref = none) :=
  ⟨⟨rfl, rfl⟩,
    c5_empty_transcript_fails (Reely.submitJob "j2" "src" Reely.initialCaptionStyle 0)
      [⟨0, 10, ""⟩] "ref" 9 rfl rfl⟩

/-! ## Claim C8: normalized transcript invariants -/

/-- Every utterance produced by the merge pass starts no earlier than
the frontier, ends after it starts, and has non-empty text, provided all
input segments pass the normalization filter. -/
theorem mergeMonotonic_mem_props (frontier : Int) (l : List Reely.RawSegment)
    (hl : ∀ s ∈ l, Reely.keepSegment s = true) :
    ∀ u ∈ Reely.mergeMonotonic frontier l,
      frontier ≤ u.start_time ∧ u.start_time < u.end_time ∧ u.text ≠ "" := by
  induction l generalizing frontier with
  | nil =>
      intro u hu
      simp [Reely.mergeMonotonic] at hu
  | cons s rest ih =>
      intro u hu
      have hs := hl s (List.mem_cons_self s rest)
      simp only [Reely.keepSegment, Bool.and_eq_true, decide_eq_true_eq,
        Bool.not_eq_true', beq_eq_false_iff_ne, ne_eq] at hs
      have hrest : ∀ x ∈ rest, Reely.keepSegment x = true :=
        fun x hx => hl x (List.mem_cons_of_mem s hx)
      unfold Reely.mergeMonotonic at hu
      split at hu
      case isTrue hts =>
        rcases List.mem_cons.mp hu with rfl | hu'
        · exact ⟨hts, hs.1.2, hs.2⟩
        · have h' := ih s.seg_end hrest u hu'
          exact ⟨le_trans (le_of_lt (lt_of_le_of_lt hts hs.1.2)) h'.1, h'.2⟩
      case isFalse =>
        exact ih frontier hrest u hu

/-- The merge pass produces a sequence whose start times are pairwise
non-decreasing, provided all input segments pass the normalization
filter. -/
theorem mergeMonotonic_pairwise (frontier : Int) (l : List Reely.RawSegment)
    (hl : ∀ s ∈ l, Reely.keepSegment s = true) :
    List.Pairwise (fun a b => a.start_time ≤ b.start_time)
      (Reely.mergeMonotonic frontier l) := by
  induction l generalizing frontier with
  | nil =>
      simp [Reely.mergeMonotonic]
  | cons s rest ih =>
      have hs := hl s (List.mem_cons_self s rest)
      simp only [Reely.keepSegment, Bool.and_eq_true, decide_eq_true_eq,
        Bool.not_eq_true', beq_eq_false_iff_ne, ne_eq] at hs
      have hrest : ∀ x ∈ rest, Reely.keepSegment x = true :=
        fun x hx => hl x (List.mem_cons_of_mem s hx)
      unfold Reely.mergeMonotonic
      split
      case isTrue hts =>
        refine List.Pairwise.cons ?_ (ih s.seg_end hrest)
        intro b hb
        have hb' := mergeMonotonic_mem_props s.seg_end rest hrest b hb
        exact le_trans (le_of_lt hs.1.2) hb'.1
      case isFalse =>
        exact ih frontier hrest

/-- C8: every Transcript produced by normalization satisfies the
section 3 invariant — each utterance has non-empty text, non-negative
start and end times with end after start, and the start times are
non-decreasing along the sequence (gaps between utterances remain
allowed). -/
theorem c8_utterance_invariants (segs : List Reely.RawSegment) :
    (∀ u ∈ Reely.normalizeSegments segs,
      u.text ≠ "" ∧ 0 ≤ u.start_time ∧ 0 ≤ u.end_time ∧ u.start_time < u.end_time) ∧
    List.Pairwise (fun a b => a.start_time ≤ b.start_time)
      (Reely.normalizeSegments segs) := by
  have hl : ∀ s ∈ segs.filter Reely.keepSegment, Reely.keepSegment s = true :=
    fun s hs => List.of_mem_filter hs
  constructor
  · intro u hu
    have h := mergeMonotonic_mem_props 0 (segs.filter Reely.keepSegment) hl u hu
    exact ⟨h.2.2, h.1, le_of_lt (lt_of_le_of_lt h.1 h.2.1), h.2.1⟩
  · exact mergeMonotonic_pairwise 0 (segs.filter Reely.keepSegment) hl

/-- Witness for c8_utterance_invariants at a concrete two-segment
transcript and its first utterance. -/
theorem c8_utterance_invariants_witness :
    ((⟨0, 5, "hi"⟩ : Reely.Utterance) ∈
        Reely.normalizeSegments [⟨0, 5, "hi"⟩, ⟨5, 9, "there"⟩]) ∧
    ((⟨0, 5, "hi"⟩ : Reely.Utterance).text ≠ "" ∧
      0 ≤ (⟨0, 5, "hi"⟩ : Reely.Utterance).start_time ∧
      0 ≤ (⟨0, 5, "hi"⟩ : Reely.Utterance).end_time ∧
      (⟨0, 5, "hi"⟩ : Reely.Utterance).start_time <
        (⟨0, 5, "hi"⟩ : Reely.Utterance).end_time) ∧
    List.Pairwise (fun a b => a.start_time ≤ b.start_time)
      (Reely.normalizeSegments [⟨0, 5, "hi"⟩, ⟨5, 9, "there"⟩]) :=
  ⟨by decide,
    (c8_utterance_invariants [⟨0, 5, "hi"⟩, ⟨5, 9, "there"⟩]).1 ⟨0, 5, "hi"⟩ (by decide),
    (c8_utterance_invariants [⟨0, 5, "hi"⟩, ⟨5, 9, "there"⟩]).2⟩
